import Mathlib

/-!
Verification of the warbler micro-blogging application.

The repository ships `forms.py` (WTForms form declarations) together with the
test suites for the user model, the message model and the view routes.  The
entity model (`models.py`) and the route handlers (`app.py`) are exercised by
those tests but their source is not part of the repository snapshot, so they
are modelled here from the specification; every such definition carries a
doc comment starting with `Modelled from the spec:`.  Definitions taken from
`forms.py` follow that file directly.
-/

namespace Warbler

/-- Modelled from the spec: default placeholder for a user's profile image
(`image_url (default placeholder)` in the data model). -/
def DEFAULT_IMAGE_URL : String := "/static/images/default-pic.png"

/-- Modelled from the spec: default placeholder for a user's header image. -/
def DEFAULT_HEADER_IMAGE_URL : String := "/static/images/warbler-hero.jpg"

/-- Modelled from the spec: the one-way password hash (`flask_bcrypt` in the
tests, `models.py` is absent).  The model keeps the properties the spec
states — deterministic verification against the stored hash and an output
that is never the raw input — by prefixing a fixed bcrypt-style tag. -/
def bcrypt_hash (pw : String) : String := "$2b$12$" ++ pw

/-- Modelled from the spec: bcrypt `check_password_hash`, the verification
half of the same hashing scheme. -/
def bcrypt_check (pw stored : String) : Bool := stored == bcrypt_hash pw

/-- User entity: id (unique), username (unique, required), email (unique,
required), password (stored as a hash), image urls and bio. -/
structure User where
  id : Nat
  username : String
  email : String
  password : String
  image_url : String
  header_image_url : String
  bio : String
deriving DecidableEq, Repr

/-- Message entity: id, text, owning user id. -/
structure Message where
  id : Nat
  text : String
  user_id : Nat
deriving DecidableEq, Repr

/-- Follows edge: directed, follower → followed. -/
structure Follows where
  follower_id : Nat
  followed_id : Nat
deriving DecidableEq, Repr

/-- Like edge: a user favorited a message. -/
structure Like where
  user_id : Nat
  message_id : Nat
deriving DecidableEq, Repr

/-- The relational store: users, messages, follows and like edges, plus the
id counters the database assigns from. -/
structure DB where
  users : List User
  messages : List Message
  follows : List Follows
  likes : List Like
  next_user_id : Nat
  next_message_id : Nat
deriving DecidableEq, Repr

/-! ## Form validators, from `forms.py` -/

/-- Whitespace characters, as Python's `str.strip` removes them. -/
def is_space (c : Char) : Bool := c == ' ' || c == '\t' || c == '\n' || c == '\r'

/-- WTForms `DataRequired`: the field must hold data that is not empty and
not only whitespace (the stripped string must be nonempty, i.e. some
character is not whitespace). -/
def data_required (s : String) : Bool := s.data.any (fun c => !(is_space c))

/-- WTForms `Email` (external library validator, modelled as the presence of
an `@`; no claim depends on its exact shape). -/
def email_ok (s : String) : Bool := s.data.any (fun c => c == '@')

/-- WTForms `Length(min := n)` as used in `forms.py`. -/
def length_min (n : Nat) (s : String) : Bool := n ≤ s.length

/-- WTForms `Length(max := n)` as used in `forms.py`. -/
def length_max (n : Nat) (s : String) : Bool := s.length ≤ n

/-- `MessageForm` from `forms.py`: `text` with `DataRequired`. -/
def MessageForm_validate (text : String) : Bool := data_required text

/-- `UserAddForm` from `forms.py`: username `DataRequired`, email
`DataRequired` and `Email`, password `Length(min=6)`, image_url free. -/
def UserAddForm_validate (username email password image_url : String) : Bool :=
  data_required username && (data_required email && email_ok email)
    && length_min 6 password

/-- `LoginForm` from `forms.py`: username `DataRequired`,
password `Length(min=6)`. -/
def LoginForm_validate (username password : String) : Bool :=
  data_required username && length_min 6 password

/-- The fields submitted to the profile-update form. -/
structure ProfileForm where
  username : String
  email : String
  image_url : String
  header_image_url : String
  bio : String
  password : String
deriving DecidableEq, Repr

/-- `UserUpdateForm` from `forms.py`: username `DataRequired` and
`Length(max=30)`; email `DataRequired` and `Email`; image and header image
`DataRequired`; bio `Optional` then `Length(max=300)`; password
`DataRequired` and `Length(min=6)`. -/
def UserUpdateForm_validate (f : ProfileForm) : Bool :=
  (data_required f.username && length_max 30 f.username)
    && (data_required f.email && email_ok f.email)
    && data_required f.image_url
    && data_required f.header_image_url
    && (!(data_required f.bio) || length_max 300 f.bio)
    && (data_required f.password && length_min 6 f.password)

/-! ## The user model, modelled from the spec (`models.py` is absent) -/

/-- Failure modes of `User.signup`: a Python `TypeError` when a required
argument is absent, an `IntegrityError` from the persistence layer when a
uniqueness constraint is violated. -/
inductive SignupError where
  | typeError
  | integrityError
deriving DecidableEq, Repr

/-- Modelled from the spec: `User.signup(username, email, password,
image_url)` from the absent `models.py`.  A missing required field is a
type/argument error raised before any persistence; an existing username or
email surfaces as a persistence-layer uniqueness failure; on success the
user is stored with a one-way hash of the password, never the raw value,
and the optional image url falls back to the default placeholder. -/
def User.signup (db : DB) (username email password : Option String)
    (image_url : Option String) : Except SignupError (DB × User) :=
  match username, email, password with
  | some un, some em, some pw =>
    if db.users.any (fun u => u.username == un || u.email == em) then
      .error .integrityError
    else
      let u : User :=
        { id := db.next_user_id, username := un, email := em,
          password := bcrypt_hash pw,
          image_url := image_url.getD DEFAULT_IMAGE_URL,
          header_image_url := DEFAULT_HEADER_IMAGE_URL, bio := "" }
      let db2 : DB :=
        { db with users := db.users ++ [u], next_user_id := db.next_user_id + 1 }
      .ok (db2, u)
  | _, _, _ => .error .typeError

/-- Modelled from the spec: a signup attempt followed by commit or rollback;
on any failure the transaction is rolled back and the store is unchanged. -/
def try_signup (db : DB) (username email password : Option String)
    (image_url : Option String) : DB × Except SignupError User :=
  match User.signup db username email password image_url with
  | .ok (db', u) => (db', .ok u)
  | .error e => (db, .error e)

/-- Modelled from the spec: `User.authenticate(username, password)` from the
absent `models.py`.  Looks a user up by username; if found, verifies the
candidate password against the stored hash; returns the matched user on
success, or the `none` sentinel on any failure — unknown username and wrong
password are indistinguishable to the caller. -/
def User.authenticate (db : DB) (username password : String) : Option User :=
  match db.users.find? (fun u => u.username == username) with
  | some u => if bcrypt_check password u.password then some u else none
  | none => none

/-- Modelled from the spec: `is_following(other)` — true iff a Follows edge
exists with self as follower and other as followed. -/
def User.is_following (db : DB) (self other : User) : Bool :=
  db.follows.any (fun f => f.follower_id == self.id && f.followed_id == other.id)

/-- Modelled from the spec: `is_followed_by(other)` — the symmetric check
with the roles reversed. -/
def User.is_followed_by (db : DB) (self other : User) : Bool :=
  db.follows.any (fun f => f.follower_id == other.id && f.followed_id == self.id)

/-- Modelled from the spec: removing the follow edge from `a` to `b`
(`self.following.remove(other)` in the model tests). -/
def remove_follow (db : DB) (a b : User) : DB :=
  { db with follows :=
      db.follows.filter (fun f => !(f.follower_id == a.id && f.followed_id == b.id)) }

/-- Modelled from the spec: deleting a User cascades — all Messages owned by
that user and all Follows/Like edges referencing that user are removed in
the same operation. -/
def delete_user (db : DB) (uid : Nat) : DB :=
  { db with
    users := db.users.filter (fun u => u.id != uid),
    messages := db.messages.filter (fun m => m.user_id != uid),
    follows := db.follows.filter
      (fun f => !(f.follower_id == uid) && !(f.followed_id == uid)),
    likes := db.likes.filter (fun l => !(l.user_id == uid)) }

/-! ## Request handlers, modelled from the spec (`app.py` is absent) -/

/-- Modelled from the spec: the bound on message text (`text (required,
bounded length)`); the spec states a bound but not its value, taken here as
the conventional 140 characters. -/
def MESSAGE_TEXT_MAX : Nat := 140

/-- The visible outcomes of a request: a success redirect, the
"Access unauthorized." rejection, a re-render of the originating form with
errors, the "Invalid Password" rejection of a profile update, a not-found
response, and a persistence-layer constraint rejection. -/
inductive Resp where
  | redirect
  | unauthorized
  | renderForm
  | invalidPassword
  | notFound
  | dbError
deriving DecidableEq, Repr

/-- Modelled from the spec: `POST /messages/new`.  Requires an authenticated
session, else "Access unauthorized" with no mutation; validates the
`MessageForm`, re-rendering the creation form when it fails; rejects text
over the persistence bound; otherwise stores the message owned by the
session's user id. -/
def add_message (sess : Option Nat) (text : String) (db : DB) : DB × Resp :=
  match sess with
  | none => (db, Resp.unauthorized)
  | some uid =>
    if MessageForm_validate text = false then (db, Resp.renderForm)
    else if MESSAGE_TEXT_MAX < text.length then (db, Resp.dbError)
    else
      let m : Message := { id := db.next_message_id, text := text, user_id := uid }
      ({ db with messages := db.messages ++ [m],
                 next_message_id := db.next_message_id + 1 }, Resp.redirect)

/-- Modelled from the spec: `POST /messages/:id/delete`.  Requires an
authenticated session matching the message owner, otherwise rejected with an
authorization failure; deletion is a hard delete. -/
def delete_message (sess : Option Nat) (mid : Nat) (db : DB) : DB × Resp :=
  match sess with
  | none => (db, Resp.unauthorized)
  | some uid =>
    match db.messages.find? (fun m => m.id == mid) with
    | none => (db, Resp.notFound)
    | some m =>
      if m.user_id == uid then
        ({ db with messages := db.messages.filter (fun x => !(x.id == mid)) },
         Resp.redirect)
      else (db, Resp.unauthorized)

/-- Modelled from the spec: applying every submitted profile field to a
stored user (the password field of the form is the re-entered current
password, not a new stored value). -/
def apply_profile (x : User) (f : ProfileForm) : User :=
  { x with username := f.username, email := f.email, image_url := f.image_url,
           header_image_url := f.header_image_url, bio := f.bio }

/-- Modelled from the spec: `POST /users/profile`.  Requires an
authenticated session (the target is the session user, so ownership holds by
construction); validates `UserUpdateForm`; requires the re-entered current
password to verify against the stored hash, rejecting with "Invalid
Password" and no change otherwise; on success applies all submitted fields
in a single transaction. -/
def update_profile (sess : Option Nat) (f : ProfileForm) (db : DB) : DB × Resp :=
  match sess with
  | none => (db, Resp.unauthorized)
  | some uid =>
    match db.users.find? (fun u => u.id == uid) with
    | none => (db, Resp.unauthorized)
    | some u =>
      if UserUpdateForm_validate f = false then (db, Resp.renderForm)
      else if bcrypt_check f.password u.password = false then
        (db, Resp.invalidPassword)
      else
        let db2 : DB :=
          { db with users := db.users.map (fun x =>
              if x.id == uid then apply_profile x f else x) }
        (db2, Resp.redirect)

/-- Modelled from the spec: `POST /users/delete`.  Requires an authenticated
session; deletes the session user and all owned entities (the cascade of
`delete_user`). -/
def delete_user_route (sess : Option Nat) (db : DB) : DB × Resp :=
  match sess with
  | none => (db, Resp.unauthorized)
  | some uid => (delete_user db uid, Resp.redirect)

/-! ## Sample data used by the witness theorems -/

/-- A sample stored user. -/
def alice : User :=
  { id := 1, username := "alice", email := "alice@test.com",
    password := bcrypt_hash "password1", image_url := DEFAULT_IMAGE_URL,
    header_image_url := DEFAULT_HEADER_IMAGE_URL, bio := "" }

/-- A second sample stored user. -/
def bob : User :=
  { id := 2, username := "bob", email := "bob@test.com",
    password := bcrypt_hash "password2", image_url := DEFAULT_IMAGE_URL,
    header_image_url := DEFAULT_HEADER_IMAGE_URL, bio := "" }

/-- A sample message owned by `alice`. -/
def msg1 : Message := { id := 1, text := "hello", user_id := 1 }

/-- A sample message owned by `bob`. -/
def msg2 : Message := { id := 2, text := "warble", user_id := 2 }

/-- A sample store holding both users, their messages, a follow edge from
`alice` to `bob` and a like by `alice` of `bob`'s message. -/
def db0 : DB :=
  { users := [alice, bob], messages := [msg1, msg2],
    follows := [{ follower_id := 1, followed_id := 2 }],
    likes := [{ user_id := 1, message_id := 2 }],
    next_user_id := 3, next_message_id := 3 }

/-- A profile-update form whose fields are all valid and whose re-entered
password is `alice`'s current password. -/
def form_good : ProfileForm :=
  { username := "alice", email := "alice@test.com", image_url := "/img.png",
    header_image_url := "/hdr.png", bio := "new bio!", password := "password1" }

/-- The same form with a wrong re-entered password. -/
def form_bad : ProfileForm := { form_good with password := "wrongpass1" }

/-- A message text one character over the persistence bound. -/
def long_text : String := String.mk (List.replicate 141 'a')

/-! ## Theorems -/

/-- C4: every protected mutating request (create message, delete message,
update profile, delete user) issued without an authenticated session marker
fails with the "Access unauthorized" response and leaves the store
untouched. -/
theorem unauthenticated_requests_rejected (db : DB) (text : String) (mid : Nat)
    (f : ProfileForm) :
    add_message none text db = (db, Resp.unauthorized)
    ∧ delete_message none mid db = (db, Resp.unauthorized)
    ∧ update_profile none f db = (db, Resp.unauthorized)
    ∧ delete_user_route none db = (db, Resp.unauthorized) :=
  ⟨rfl, rfl, rfl, rfl⟩

/-- C8: `is_following a b` is true iff a Follows edge with `a` as follower
and `b` as followed is stored; `is_followed_by` is its consistent inverse;
once the edge is removed both checks return false. -/
theorem follows_edge_iff_is_following (db : DB) (a b : User) :
    (User.is_following db a b = true ↔
      ∃ f ∈ db.follows, f.follower_id = a.id ∧ f.followed_id = b.id)
    ∧ User.is_followed_by db b a = User.is_following db a b
    ∧ User.is_following (remove_follow db a b) a b = false
    ∧ User.is_followed_by (remove_follow db a b) b a = false := by
  refine ⟨?_, rfl, ?_, ?_⟩
  · simp [User.is_following, List.any_eq_true]
  · simp [User.is_following, remove_follow, List.any_eq_true, List.mem_filter]
    intro x _ h ha
    tauto
  · simp [User.is_followed_by, remove_follow, List.any_eq_true, List.mem_filter]
    intro x _ h ha
    tauto

/-- C8 witness: the consequences of `follows_edge_iff_is_following` at the
sample store. -/
theorem follows_edge_iff_is_following_witness :
    User.is_following db0 alice bob = true
    ∧ User.is_followed_by db0 bob alice = User.is_following db0 alice bob
    ∧ User.is_following (remove_follow db0 alice bob) alice bob = false :=
  ⟨((follows_edge_iff_is_following db0 alice bob).1).mpr
      ⟨{ follower_id := 1, followed_id := 2 }, by decide, by decide, by decide⟩,
    (follows_edge_iff_is_following db0 alice bob).2.1,
    (follows_edge_iff_is_following db0 alice bob).2.2.1⟩

/-- C9: deleting a user removes, in one operation, every message owned by
that user and every Follows/Like edge referencing that user, so no stored
entity references the deleted user's id afterwards; entities not
referencing that id survive. -/
theorem delete_user_removes_references (db : DB) (uid : Nat) :
    (∀ u ∈ (delete_user db uid).users, u.id ≠ uid)
    ∧ (∀ m ∈ (delete_user db uid).messages, m.user_id ≠ uid)
    ∧ (∀ f ∈ (delete_user db uid).follows,
        f.follower_id ≠ uid ∧ f.followed_id ≠ uid)
    ∧ (∀ l ∈ (delete_user db uid).likes, l.user_id ≠ uid)
    ∧ (∀ m ∈ db.messages, m.user_id ≠ uid → m ∈ (delete_user db uid).messages) := by
  refine ⟨?_, ?_, ?_, ?_, ?_⟩ <;>
    simp [delete_user, List.mem_filter] <;> tauto

/-- C9 witness: after deleting user 2 from the sample store, `alice`'s
message survives while nothing references user 2. -/
theorem delete_user_removes_references_witness :
    msg1 ∈ (delete_user db0 2).messages :=
  (delete_user_removes_references db0 2).2.2.2.2 msg1 (by decide) (by decide)

/-- C10: each password-accepting form of `forms.py` (signup, login, profile
update) rejects any submission whose password is shorter than 6
characters. -/
theorem password_forms_require_min_length (pw : String) (hpw : pw.length < 6)
    (un em iu : String) (f : ProfileForm) (hf : f.password = pw) :
    UserAddForm_validate un em pw iu = false
    ∧ LoginForm_validate un pw = false
    ∧ UserUpdateForm_validate f = false := by
  have hlen : length_min 6 pw = false := by
    simp [length_min]; omega
  refine ⟨?_, ?_, ?_⟩
  · simp [UserAddForm_validate, hlen]
  · simp [LoginForm_validate, hlen]
  · simp [UserUpdateForm_validate, hf, hlen]

/-- C10 witness: `password_forms_require_min_length` applied to the
five-character password "12345". -/
theorem password_forms_require_min_length_witness :
    UserAddForm_validate "alice" "alice@test.com" "12345" "" = false
    ∧ LoginForm_validate "alice" "12345" = false :=
  ⟨(password_forms_require_min_length "12345" (by decide) "alice"
      "alice@test.com" ""
      { username := "alice", email := "alice@test.com", image_url := "x",
        header_image_url := "x", bio := "", password := "12345" } rfl).1,
    (password_forms_require_min_length "12345" (by decide) "alice"
      "alice@test.com" ""
      { username := "alice", email := "alice@test.com", image_url := "x",
        header_image_url := "x", bio := "", password := "12345" } rfl).2.1⟩

/-- The hash output is longer than its input, so it never equals it. -/
lemma bcrypt_hash_ne (pw : String) : bcrypt_hash pw ≠ pw := by
  intro h
  have hlen := congrArg String.length h
  have h7 : ("$2b$12$" : String).length = 7 := rfl
  rw [bcrypt_hash, String.length_append, h7] at hlen
  omega

/-- C1: for a stored user, `authenticate(username, password)` returns that
user iff the candidate password verifies against the stored hash; an
unknown username and a wrong password both return the `none` sentinel, so
the two failure modes are indistinguishable. -/
theorem authenticate_matches_iff_verifies (db : DB) (usr : User) (pw : String)
    (hmem : usr ∈ db.users)
    (huniq : ∀ x ∈ db.users, ∀ y ∈ db.users, x.username = y.username → x = y) :
    (User.authenticate db usr.username pw = some usr ↔
      bcrypt_check pw usr.password = true)
    ∧ (bcrypt_check pw usr.password = false →
        User.authenticate db usr.username pw = none)
    ∧ (∀ un, (∀ x ∈ db.users, x.username ≠ un) →
        User.authenticate db un pw = none) := by
  have hfind : db.users.find? (fun u => u.username == usr.username) = some usr := by
    cases hf : db.users.find? (fun u => u.username == usr.username) with
    | none =>
      rw [List.find?_eq_none] at hf
      exact absurd (by simp : (fun u : User => u.username == usr.username) usr = true)
        (hf usr hmem)
    | some x =>
      have hx : x.username = usr.username := by
        have := List.find?_some hf
        simpa using this
      have : x = usr := huniq x (List.mem_of_find?_eq_some hf) usr hmem hx
      rw [this]
  refine ⟨?_, ?_, ?_⟩
  · constructor
    · intro h
      by_contra hc
      simp only [Bool.not_eq_true] at hc
      simp [User.authenticate, hfind, hc] at h
    · intro h
      simp [User.authenticate, hfind, h]
  · intro h
    simp [User.authenticate, hfind, h]
  · intro un hun
    have hnone : db.users.find? (fun u => u.username == un) = none := by
      rw [List.find?_eq_none]
      intro x hx
      simpa using hun x hx
    simp [User.authenticate, hnone]

/-- C1 witness: at the sample store, the right password authenticates
`alice`, a wrong password fails, and an unknown username fails. -/
theorem authenticate_matches_iff_verifies_witness :
    User.authenticate db0 "alice" "password1" = some alice
    ∧ User.authenticate db0 "alice" "wrong" = none
    ∧ User.authenticate db0 "nobody" "password1" = none :=
  ⟨((authenticate_matches_iff_verifies db0 alice "password1"
        (by decide) (by decide)).1).mpr (by decide),
    (authenticate_matches_iff_verifies db0 alice "wrong"
        (by decide) (by decide)).2.1 (by decide),
    (authenticate_matches_iff_verifies db0 alice "password1"
        (by decide) (by decide)).2.2 "nobody" (by decide)⟩

/-- C2: a successful signup stores the one-way hash of the password, never
the plaintext, and appends exactly the new user to the store. -/
theorem signup_stores_hash_never_plaintext (db : DB) (un em pw : String)
    (iu : Option String) (db' : DB) (u : User)
    (h : User.signup db (some un) (some em) (some pw) iu = .ok (db', u)) :
    u.password = bcrypt_hash pw ∧ u.password ≠ pw
    ∧ db'.users = db.users ++ [u] ∧ u ∈ db'.users := by
  rw [User.signup] at h
  by_cases hdup : db.users.any (fun x => x.username == un || x.email == em)
  · rw [if_pos hdup] at h
    exact absurd h (by simp)
  · rw [if_neg hdup] at h
    simp only [Except.ok.injEq, Prod.mk.injEq] at h
    obtain ⟨hdb, hu⟩ := h
    subst hdb hu
    refine ⟨rfl, bcrypt_hash_ne pw, rfl, by simp⟩

/-- C2 witness: signing up a fresh user in the sample store succeeds and
stores a password field different from the plaintext. -/
theorem signup_stores_hash_never_plaintext_witness :
    ∃ db' u, User.signup db0 (some "carol") (some "carol@test.com")
        (some "secret7") none = .ok (db', u)
      ∧ u.password = bcrypt_hash "secret7" ∧ u.password ≠ "secret7" := by
  refine ⟨_, _, rfl, ?_⟩
  have h := signup_stores_hash_never_plaintext db0 "carol" "carol@test.com"
    "secret7" none _ _ rfl
  exact ⟨h.1, h.2.1⟩

/-- C3: signup with a missing required field is a type/argument error before
persistence; signup with an already-stored username is a uniqueness failure
from the persistence layer; in both cases the rolled-back store is
unchanged. -/
theorem signup_failure_modes (db : DB) (un em pw : String) (iu : Option String)
    (hdup : ∃ x ∈ db.users, x.username = un ∨ x.email = em) :
    try_signup db none (some em) (some pw) iu = (db, .error .typeError)
    ∧ try_signup db (some un) (some em) (some pw) iu
        = (db, .error .integrityError) := by
  constructor
  · rfl
  · have hany : db.users.any (fun x => x.username == un || x.email == em) = true := by
      rw [List.any_eq_true]
      obtain ⟨x, hx, hor⟩ := hdup
      exact ⟨x, hx, by simpa using hor⟩
    rw [try_signup, User.signup, if_pos hany]

/-- C3 witness: `signup_failure_modes` at the sample store, whose user
`alice` already holds the username being signed up. -/
theorem signup_failure_modes_witness :
    try_signup db0 none (some "x@y.z") (some "secret7") none
        = (db0, .error .typeError)
    ∧ try_signup db0 (some "alice") (some "x@y.z") (some "secret7") none
        = (db0, .error .integrityError) :=
  signup_failure_modes db0 "alice" "x@y.z" "secret7" none
    ⟨alice, by decide, Or.inl rfl⟩

/-- C5: a delete request for a message owned by user `b`, issued while
authenticated as a different user `a`, is rejected with an authorization
failure and the stored message count is unchanged. -/
theorem delete_message_nonowner_rejected (db : DB) (a b mid : Nat) (m : Message)
    (hfind : db.messages.find? (fun x => x.id == mid) = some m)
    (hown : m.user_id = b) (hab : a ≠ b) :
    delete_message (some a) mid db = (db, Resp.unauthorized)
    ∧ (delete_message (some a) mid db).1.messages.length = db.messages.length := by
  have hba : (m.user_id == a) = false := by
    simp [hown]
    omega
  have h1 : delete_message (some a) mid db = (db, Resp.unauthorized) := by
    simp [delete_message, hfind, hba]
  exact ⟨h1, by rw [h1]⟩

/-- C5 witness: `alice` (user 1) cannot delete `bob`'s message (id 2). -/
theorem delete_message_nonowner_rejected_witness :
    delete_message (some 1) 2 db0 = (db0, Resp.unauthorized) :=
  (delete_message_nonowner_rejected db0 1 2 2 msg2
    (by decide) (by decide) (by decide)).1

/-- C6: a profile update by the session user is rejected with no field
changed whenever the re-entered password fails verification against the
stored hash; when the form is valid and the password verifies, all
submitted fields are applied in a single step. -/
theorem update_profile_password_gate (db : DB) (uid : Nat) (f : ProfileForm)
    (u : User) (hfind : db.users.find? (fun x => x.id == uid) = some u) :
    (bcrypt_check f.password u.password = false →
      (update_profile (some uid) f db).1 = db
      ∧ ((update_profile (some uid) f db).2 = Resp.invalidPassword
          ∨ (update_profile (some uid) f db).2 = Resp.renderForm))
    ∧ (UserUpdateForm_validate f = true →
        bcrypt_check f.password u.password = true →
        update_profile (some uid) f db
          = ({ db with users := db.users.map (fun x =>
                if x.id == uid then apply_profile x f else x) },
             Resp.redirect)) := by
  constructor
  · intro hchk
    by_cases hv : UserUpdateForm_validate f = true
    · have h1 : update_profile (some uid) f db = (db, Resp.invalidPassword) := by
        simp [update_profile, hfind, hv, hchk]
      rw [h1]
      exact ⟨rfl, Or.inl rfl⟩
    · have hv2 : UserUpdateForm_validate f = false := by
        revert hv
        cases UserUpdateForm_validate f <;> simp
      have h1 : update_profile (some uid) f db = (db, Resp.renderForm) := by
        simp [update_profile, hfind, hv2]
      rw [h1]
      exact ⟨rfl, Or.inr rfl⟩
  · intro hv hchk
    simp [update_profile, hfind, hv, hchk]

/-- C6 witness: with the wrong password the sample store is unchanged; with
the right password `alice`'s submitted fields are all applied. -/
theorem update_profile_password_gate_witness :
    (update_profile (some 1) form_bad db0).1 = db0
    ∧ update_profile (some 1) form_good db0
        = ({ db0 with users := db0.users.map (fun x =>
              if x.id == 1 then apply_profile x form_good else x) },
           Resp.redirect) :=
  ⟨((update_profile_password_gate db0 1 form_bad alice (by decide)).1
      (by decide)).1,
    (update_profile_password_gate db0 1 form_good alice (by decide)).2
      (by decide) (by decide)⟩

/-- C7: creating a message while authenticated with empty text re-renders
the creation form and leaves the store unchanged; text over the persistence
bound is rejected with the store unchanged. -/
theorem add_message_text_validation (db : DB) (uid : Nat) :
    add_message (some uid) "" db = (db, Resp.renderForm)
    ∧ ∀ text : String, MESSAGE_TEXT_MAX < text.length →
        (add_message (some uid) text db).1 = db
        ∧ (add_message (some uid) text db).2 ≠ Resp.redirect := by
  constructor
  · have h : MessageForm_validate "" = false := by decide
    simp [add_message, h]
  · intro text hlen
    by_cases hv : MessageForm_validate text = true
    · have h1 : add_message (some uid) text db = (db, Resp.dbError) := by
        simp [add_message, hv, hlen]
      rw [h1]
      exact ⟨rfl, by simp⟩
    · have hv2 : MessageForm_validate text = false := by
        revert hv
        cases MessageForm_validate text <;> simp
      have h1 : add_message (some uid) text db = (db, Resp.renderForm) := by
        simp [add_message, hv2]
      rw [h1]
      exact ⟨rfl, by simp⟩

/-- C7 witness: at the sample store, an empty message re-renders the form
and a 141-character message leaves the store unchanged. -/
theorem add_message_text_validation_witness :
    add_message (some 1) "" db0 = (db0, Resp.renderForm)
    ∧ (add_message (some 1) long_text db0).1 = db0 :=
  ⟨(add_message_text_validation db0 1).1,
    ((add_message_text_validation db0 1).2 long_text (by
        show 140 < (List.replicate 141 'a').length
        simp)).1⟩

end Warbler
